import Mathlib

/-!
Shallow embedding of `src/supbot/service_manager.py` (Supbot2).

The gesture driver (`AppDriver`) is an external collaborator specified only at
its interface boundary, so it is modelled as an oracle: boolean-returning
gesture calls (`click_on_chat`, `search_chat`, `type_and_send`,
`click_on_last_chat_link`, `click_ok`) consume successive entries of a response
list, while `press_back` returns nothing.  Every driver call is recorded in an
output trace, every logger call in an output log, and every event emission in
an output event list, so that "zero driver calls", "one back-navigation",
"a warning is logged" and "emits these events in this order" are all statable
as equalities on the resulting world.
-/

/-- Modelled from the spec: `ScreenState` is a tagged variant, `Main` with no
payload or `Chat(identifier)` (the source's `supbot.model.GUIState` is not in
`src/`). -/
inductive GUIState where
  | main : GUIState
  | chat (info : String) : GUIState
deriving DecidableEq, Repr

/-- One driver call, as recorded in the trace. -/
inductive DCall where
  | pressBack : DCall
  | clickOnChat (s : String) : DCall
  | searchChat (s : String) : DCall
  | typeAndSend (s : String) : DCall
  | clickLastLink : DCall
  | clickOk : DCall
  | getNewChat : DCall
  | getNewMessages : DCall
deriving DecidableEq, Repr

/-- One logger call of `service_manager.py`, one constructor per call site,
carrying the formatted-in data. -/
inductive LogEntry where
  | debugChatNotFound (s : String) : LogEntry
  | debugNotInSearch (s : String) : LogEntry
  | debugNotOnWhatsapp (s : String) : LogEntry
  | warnStateMismatch : LogEntry
  | debugCreateTemp : LogEntry
  | debugNotPhone (s : String) : LogEntry
  | warnActionDataTyping (name : String) : LogEntry
deriving DecidableEq, Repr

/-- An emitted event: `Event.MESSAGE_RECEIVED` with params `(chat_name, message)`. -/
inductive EventEmit where
  | messageReceived (chatName message : String) : EventEmit
deriving DecidableEq, Repr

/-- The world a run of the service manager threads through: the driver oracle
(`resps` for boolean gesture calls, `newChat` for `get_new_chat`, `msgs` for
`get_new_messages`) and the observable outputs (`trace`, `logs`, `events`). -/
structure World where
  resps : List Bool
  newChat : Option String
  msgs : List String
  trace : List DCall
  logs : List LogEntry
  events : List EventEmit
deriving DecidableEq, Repr

/-- `driver.press_back()`: returns nothing, recorded in the trace. -/
def press_back (w : World) : World :=
  { w with trace := w.trace ++ [DCall.pressBack] }

/-- A boolean-returning driver call: consumes the next oracle response
(`false` once the oracle is exhausted) and is recorded in the trace. -/
def takeBool (c : DCall) (w : World) : Bool × World :=
  (w.resps.headD false,
   { w with resps := w.resps.tail, trace := w.trace ++ [c] })

/-- `driver.click_on_chat(s)`. -/
def click_on_chat (s : String) (w : World) : Bool × World :=
  takeBool (DCall.clickOnChat s) w

/-- `driver.search_chat(s)`. -/
def search_chat (s : String) (w : World) : Bool × World :=
  takeBool (DCall.searchChat s) w

/-- `driver.type_and_send(s)`. -/
def type_and_send (s : String) (w : World) : Bool × World :=
  takeBool (DCall.typeAndSend s) w

/-- `driver.click_on_last_chat_link()`. -/
def click_on_last_chat_link (w : World) : Bool × World :=
  takeBool DCall.clickLastLink w

/-- `driver.click_ok()`. -/
def click_ok (w : World) : Bool × World :=
  takeBool DCall.clickOk w

/-- `driver.get_new_chat()`: yields the oracle's pending new chat, if any. -/
def get_new_chat (w : World) : Option String × World :=
  (w.newChat, { w with trace := w.trace ++ [DCall.getNewChat] })

/-- `driver.get_new_messages()`: yields the oracle's pending messages. -/
def get_new_messages (w : World) : List String × World :=
  (w.msgs, { w with trace := w.trace ++ [DCall.getNewMessages] })

/-- `system.logger.debug(...)` / `system.logger.warning(...)`. -/
def logLine (e : LogEntry) (w : World) : World :=
  { w with logs := w.logs ++ [e] }

/-- `system.call_event(event, params)` (`src/supbot/system.py`, lines 105-113):
looks up the externally registered callback for the event and, if one is set,
invokes it synchronously with the params unpacked.  The callbacks themselves
are external collaborators supplied by the embedding application, so their
invocation is observable only as "this event was called with these params":
each emission is recorded, in call order, in the world's event list (an unset
callback differs only outside the program, so both cases record the same
emission). -/
def call_event (e : EventEmit) (w : World) : World :=
  { w with events := w.events ++ [e] }

/-- Python short-circuit `a and b` over two driver calls: `b` runs only if `a`
returned `True`. -/
def sAnd (fa fb : World → Bool × World) (w : World) : Bool × World :=
  let r := fa w
  if r.1 then fb r.2 else (false, r.2)

/-- Is `c` one of the characters `'0'`..`'9'`? -/
def isDigitChar (c : Char) : Bool :=
  48 ≤ c.toNat && c.toNat ≤ 57

/-- Do at least `n` digit characters start at the head of the list? -/
def startsWithDigits : Nat → List Char → Bool
  | 0, _ => true
  | _ + 1, [] => false
  | n + 1, c :: cs => isDigitChar c && startsWithDigits n cs

/-- Does any position of the list start a run of at least 11 digits? -/
def existsMatchPos : List Char → Bool
  | [] => false
  | c :: cs => startsWithDigits 11 (c :: cs) || existsMatchPos cs

/-- `re.search("\d{11,13}", s)` as a boolean (line 104): the pattern has a
match iff at least 11 consecutive digit characters start at some position of
`s` — the upper repetition bound 13 never affects whether a match exists,
only how long the leftmost match is. -/
def re_search_digits_11_13 (s : String) : Bool :=
  existsMatchPos s.data

/-- Lines 106-117 of `change_state`: the deep-link ("intent") fallback, entered
after the phone-number pattern matched.  Falling off the branch means reaching
the final `return 1, _from` of `change_state` with `_from = Main`. -/
def intent_fallback (y : String) (w : World) : (Nat × GUIState) × World :=
  let r1 := sAnd (search_chat "!temp") (click_on_chat "!temp") w
  if r1.1 then
    let r2 := sAnd (type_and_send ("wa.me/" ++ y)) click_on_last_chat_link r1.2
    if r2.1 then
      let r3 := click_ok r2.2
      if !r3.1 then ((0, GUIState.chat y), r3.2)
      else ((1, GUIState.main), logLine (LogEntry.debugNotOnWhatsapp y) r3.2)
    else
      ((1, GUIState.main), press_back (logLine LogEntry.warnStateMismatch r2.2))
  else ((1, GUIState.main), logLine LogEntry.debugCreateTemp r1.2)

/-- Lines 100-119 of `change_state`: the search surfaced results but the tap on
`y` failed; undo the search UI with two back presses, then either try the
deep-link fallback (phone-number-shaped `y`) or fall through to failure. -/
def after_search_fail (y : String) (w : World) : (Nat × GUIState) × World :=
  let w := logLine (LogEntry.debugNotInSearch y) w
  let w := press_back (press_back w)
  if re_search_digits_11_13 y then intent_fallback y w
  else ((1, GUIState.main), logLine (LogEntry.debugNotPhone y) w)

/-- Lines 91-119 of `change_state`: the `_from = Main`, `_to = Chat(y)` branch.
Direct tap; else search then tap; else `after_search_fail`.  Falling through
yields `return 1, _from` with `_from = Main`. -/
def main_to_chat (y : String) (w : World) : (Nat × GUIState) × World :=
  let r1 := click_on_chat y w
  if r1.1 then ((0, GUIState.chat y), r1.2)
  else
    let w := logLine (LogEntry.debugChatNotFound y) r1.2
    let r2 := search_chat y w
    if r2.1 then
      let r3 := click_on_chat y r2.2
      if r3.1 then ((0, GUIState.chat y), r3.2)
      else after_search_fail y r3.2
    else ((1, GUIState.main), r2.2)

/-- `change_state` restricted to `_from = Main` (the target of the source's
single recursive call, which always passes `GUIState(State.MAIN)`). -/
def change_state_main (w : World) (t : GUIState) : (Nat × GUIState) × World :=
  match t with
  | GUIState.main => ((1, GUIState.main), w)
  | GUIState.chat y => main_to_chat y w

/-- `change_state(system, driver, _from, _to)` (lines 73-128).  Success flag `0`,
failure flag `1`; on fall-through the pair `(1, _from)` is returned.  The
source's recursive call `change_state(system, driver, GUIState(State.MAIN), _to)`
is `change_state_main`, its `_from = Main` specialisation. -/
def change_state (w : World) (f t : GUIState) : (Nat × GUIState) × World :=
  match t, f with
  | GUIState.main, GUIState.chat _ => ((0, GUIState.main), press_back w)
  | GUIState.main, GUIState.main => ((1, GUIState.main), w)
  | GUIState.chat y, GUIState.main => main_to_chat y w
  | GUIState.chat y, GUIState.chat x =>
    if x ≠ y then change_state_main (press_back w) (GUIState.chat y)
    else ((0, GUIState.chat y), w)

/-- `change_state` with the source's literal self-recursion, made total by a
fuel parameter: `none` means the fuel ran out before the function returned. -/
def change_stateF : Nat → World → GUIState → GUIState → Option ((Nat × GUIState) × World)
  | 0, _, _, _ => none
  | fuel + 1, w, f, t =>
    match t, f with
    | GUIState.main, GUIState.chat _ => some ((0, GUIState.main), press_back w)
    | GUIState.main, GUIState.main => some ((1, GUIState.main), w)
    | GUIState.chat y, GUIState.main => some (main_to_chat y w)
    | GUIState.chat y, GUIState.chat x =>
      if x ≠ y then change_stateF fuel (press_back w) GUIState.main (GUIState.chat y)
      else some ((0, GUIState.chat y), w)

/-- `check_for_new_chat(system, driver, current)` (lines 23-42): reconcile to
`Main`, poll for a new chat; if one is found, reconcile into it (the success
flag is discarded), fetch its new messages and emit one MESSAGE_RECEIVED event
per message, in order. -/
def check_for_new_chat (w : World) (current : GUIState) : GUIState × World :=
  let r1 := change_state w current GUIState.main
  let r2 := get_new_chat r1.2
  match r2.1 with
  | some name =>
    let r3 := change_state r2.2 r1.1.2 (GUIState.chat name)
    let r4 := get_new_messages r3.2
    let w := r4.1.foldl (fun w m => call_event (EventEmit.messageReceived name m) w) r4.2
    (r3.1.2, w)
  | none => (r1.1.2, r2.2)

/-- Modelled from the spec: an action's payload is an opaque tuple of data
(the source's `supbot.model.Action.data` is not in `src/`). -/
def ActionData : Type := List String
deriving instance DecidableEq, Repr for ActionData

/-- Modelled from the spec: a `SupAction` is a kind (name) plus a payload
(the source's `supbot.model.Action` is not in `src/`). -/
structure SupAction where
  name : String
  data : ActionData
deriving DecidableEq, Repr

/-- Modelled from the spec: a registry entry `{payloadSchema, handler}` (the
source's `supbot.action.actions` table is not in `src/`).  `data_type` is the
runtime schema check (`typeguard.check_type` succeeding), `run` the handler
`(driver, currentState, system, payload) -> newState`, with its driver effects
visible on the world. -/
structure ActionMeta where
  data_type : ActionData → Bool
  run : World → GUIState → ActionData → GUIState × World

/-- Result of one `execute_action` step: a normal return, or the `KeyError`
from `actions[action.name]` propagating out of the function. -/
inductive StepResult where
  | ok (state : GUIState) (buffer : List SupAction) (w : World) : StepResult
  | keyError (name : String) (buffer : List SupAction) (w : World) : StepResult

/-- `execute_action(system, driver, current)` (lines 46-70).  `buf.pop()` takes
the most recently appended action (`IndexError` on empty buffer is caught and
`current` returned); a registry miss raises `KeyError`, which propagates; a
failing schema check logs a warning and returns `current` with the action
dropped; otherwise the handler runs. -/
def execute_action (reg : String → Option ActionMeta) (buf : List SupAction)
    (w : World) (current : GUIState) : StepResult :=
  match buf.getLast? with
  | none => StepResult.ok current buf w
  | some action =>
    let buf2 := buf.dropLast
    match reg action.name with
    | none => StepResult.keyError action.name buf2 w
    | some meta =>
      if meta.data_type action.data then
        let r := meta.run w current action.data
        StepResult.ok r.1 buf2 r.2
      else
        StepResult.ok current buf2
          (logLine (LogEntry.warnActionDataTyping action.name) w)

/-- The empty world with an exhausted driver oracle, used in concrete runs. -/
def W0 : World := ⟨[], none, [], [], [], []⟩

/-- A world whose oracle answers the given booleans, everything else empty. -/
def Wr (resps : List Bool) : World := ⟨resps, none, [], [], [], []⟩

theorem change_state_from_main (w : World) (t : GUIState) :
    change_state w GUIState.main t = change_state_main w t := by
  cases t <;> rfl

/-- C8: for every chat identifier `x`, `reconcile(Chat(x), Chat(x))` returns
`(success, Chat(x))` and performs zero driver calls: the world, trace included,
is returned untouched. -/
theorem chat_to_same_chat_noop (x : String) (w : World) :
    change_state w (GUIState.chat x) (GUIState.chat x) = ((0, GUIState.chat x), w) := by
  simp [change_state]

/-- C3: for distinct chat identifiers `x` and `y`, `reconcile(Chat(x), Chat(y))`
issues exactly one back-navigation driver call (`press_back`) and then returns
exactly the result of `reconcile(Main, Chat(y))` on the remaining driver
behaviour. -/
theorem chat_to_chat_refines (x y : String) (w : World) (h : x ≠ y) :
    change_state w (GUIState.chat x) (GUIState.chat y)
      = change_state (press_back w) GUIState.main (GUIState.chat y) := by
  simp [change_state, change_state_main, h]

theorem chat_to_chat_refines_witness :
    "a" ≠ "b" ∧
    change_state W0 (GUIState.chat "a") (GUIState.chat "b")
      = change_state (press_back W0) GUIState.main (GUIState.chat "b") :=
  ⟨by decide, chat_to_chat_refines "a" "b" W0 (by decide)⟩

/-- C10: `change_state` terminates on every input with recursion depth at most
one: fuel `2` always suffices for the literally recursive `change_stateF` to
return (and agree with the non-recursive `change_state`), and from source state
`Main` fuel `1` already suffices, since no branch with source `Main` recurses. -/
theorem change_state_terminates (n : Nat) (w : World) (f t : GUIState) :
    change_stateF (n + 2) w f t = some (change_state w f t) ∧
    change_stateF 1 w GUIState.main t = some (change_state w GUIState.main t) := by
  constructor
  · cases f <;> cases t <;>
      simp [change_stateF, change_state, change_state_main]
    split <;> simp [change_stateF]
  · cases t <;> simp [change_stateF, change_state, change_state_main]

theorem intent_fallback_fst (y : String) (w : World) :
    (intent_fallback y w).1 = (0, GUIState.chat y) ∨
    (intent_fallback y w).1 = (1, GUIState.main) := by
  simp only [intent_fallback]
  split
  · split
    · split <;> simp
    · simp
  · simp

theorem after_search_fail_fst (y : String) (w : World) :
    (after_search_fail y w).1 = (0, GUIState.chat y) ∨
    (after_search_fail y w).1 = (1, GUIState.main) := by
  simp only [after_search_fail]
  split
  · exact intent_fallback_fst y _
  · simp

theorem main_to_chat_fst (y : String) (w : World) :
    (main_to_chat y w).1 = (0, GUIState.chat y) ∨
    (main_to_chat y w).1 = (1, GUIState.main) := by
  simp only [main_to_chat]
  split
  · simp
  · split
    · split
      · simp
      · exact after_search_fail_fst y _
    · simp

/-- The state that each failing `(from, to)` pair of `change_state` actually
returns: the original `from`, except that `Chat(x) -> Chat(y)` with `x != y`
fails out of the recursive `Main -> Chat(y)` attempt and so returns `Main`. -/
def failResult : GUIState → GUIState → GUIState
  | GUIState.chat x, GUIState.chat y => if x = y then GUIState.chat x else GUIState.main
  | f, _ => f

/-- C1 counterexample: with a driver on which every gesture fails,
`reconcile(Chat("a"), Chat("b"))` fails but returns `Main` — the intermediate
state after its back-navigation — not the believed state `Chat("a")` it was
called with. -/
theorem chat_to_chat_failure_returns_main :
    (change_state (Wr [false, false]) (GUIState.chat "a") (GUIState.chat "b")).1.1 = 1 ∧
    (change_state (Wr [false, false]) (GUIState.chat "a") (GUIState.chat "b")).1.2
      ≠ GUIState.chat "a" := by
  decide

/-- C1 amended: whenever `change_state` returns failure, the returned state is
the believed state it was called with, except in the `Chat(x) -> Chat(y)`,
`x != y` case, where the returned state is `Main` (the state reached by the
back-navigation that precedes the recursive `Main -> Chat(y)` attempt). -/
theorem change_state_failure_state (w : World) (f t : GUIState)
    (h : (change_state w f t).1.1 = 1) :
    (change_state w f t).1.2 = failResult f t := by
  cases f with
  | main =>
    cases t with
    | main => rfl
    | chat y =>
      have hm : change_state w GUIState.main (GUIState.chat y) = main_to_chat y w := rfl
      rw [hm] at h ⊢
      rcases main_to_chat_fst y w with h0 | h0
      · rw [h0] at h; simp at h
      · rw [h0]; rfl
  | chat x =>
    cases t with
    | main => simp [change_state] at h
    | chat y =>
      by_cases hxy : x = y
      · subst hxy; simp [change_state] at h
      · have hm : change_state w (GUIState.chat x) (GUIState.chat y)
            = main_to_chat y (press_back w) := by
          simp [change_state, change_state_main, hxy]
        rw [hm] at h ⊢
        rcases main_to_chat_fst y (press_back w) with h0 | h0
        · rw [h0] at h; simp at h
        · rw [h0]; simp [failResult, hxy]

theorem change_state_failure_state_witness :
    (change_state W0 GUIState.main GUIState.main).1.1 = 1 ∧
    (change_state W0 GUIState.main GUIState.main).1.2
      = failResult GUIState.main GUIState.main :=
  ⟨by decide, change_state_failure_state W0 GUIState.main GUIState.main (by decide)⟩

theorem intent_fallback_trace_mono (y : String) (w : World) :
    ∃ l, (intent_fallback y w).2.trace = w.trace ++ l := by
  simp only [intent_fallback, sAnd, search_chat, click_on_chat, type_and_send,
    click_on_last_chat_link, click_ok, takeBool, press_back, logLine]
  repeat' split
  all_goals exact ⟨_, by simp [List.append_assoc]; try rfl⟩

/-- C2 counterexample: on the driver behaviour `[false, true, false]` — the
direct tap on chat `"b"` fails, the search for `"b"` returns `True`, the tap on
the search result fails — `reconcile(Main, Chat("b"))` does not succeed: it
navigates back twice (the trace below) and fails with `(1, Main)`, refuting
"searchChat returning true implies the reconciler taps it and succeeds". -/
theorem search_true_tap_fails_no_success :
    (change_state (Wr [false, true, false]) GUIState.main (GUIState.chat "b")).1
      = (1, GUIState.main) ∧
    (change_state (Wr [false, true, false]) GUIState.main (GUIState.chat "b")).2.trace
      = [DCall.clickOnChat "b", DCall.searchChat "b", DCall.clickOnChat "b",
         DCall.pressBack, DCall.pressBack] := by
  decide

/-- C2 amended: in the `Main -> Chat(y)` transition, if the direct tap fails,
the search surfaces `y` AND the subsequent tap on the search result succeeds,
the reconciler succeeds with `(success, Chat(y))`; if the search finds nothing
(`searchChat` returns false) the reconciler fails immediately — no
back-navigation, no fallback, the trace grows by the tap and the search only;
the double back-navigation (prelude of the deep-link fallback) is reached
exactly when the search returned true but the subsequent tap failed. -/
theorem main_to_chat_search_cases (y : String) (rest : List Bool)
    (nc : Option String) (ms : List String) (tr : List DCall)
    (lg : List LogEntry) (ev : List EventEmit) :
    (change_state ⟨false :: true :: true :: rest, nc, ms, tr, lg, ev⟩
        GUIState.main (GUIState.chat y)).1 = (0, GUIState.chat y) ∧
    (change_state ⟨false :: false :: rest, nc, ms, tr, lg, ev⟩
        GUIState.main (GUIState.chat y)).1 = (1, GUIState.main) ∧
    (change_state ⟨false :: false :: rest, nc, ms, tr, lg, ev⟩
        GUIState.main (GUIState.chat y)).2.trace
      = tr ++ [DCall.clickOnChat y, DCall.searchChat y] ∧
    ((change_state ⟨false :: true :: false :: rest, nc, ms, tr, lg, ev⟩
        GUIState.main (GUIState.chat y)).2.trace).take (tr.length + 5)
      = tr ++ [DCall.clickOnChat y, DCall.searchChat y, DCall.clickOnChat y,
               DCall.pressBack, DCall.pressBack] := by
  refine ⟨?_, ?_, ?_, ?_⟩
  · simp [change_state, main_to_chat, click_on_chat, search_chat, takeBool, logLine]
  · simp [change_state, main_to_chat, click_on_chat, search_chat, takeBool, logLine]
  · simp [change_state, main_to_chat, click_on_chat, search_chat, takeBool, logLine]
  · have hm : change_state ⟨false :: true :: false :: rest, nc, ms, tr, lg, ev⟩
        GUIState.main (GUIState.chat y)
        = after_search_fail y
            ⟨rest, nc, ms,
             tr ++ [DCall.clickOnChat y, DCall.searchChat y, DCall.clickOnChat y],
             lg ++ [LogEntry.debugChatNotFound y], ev⟩ := by
      simp [change_state, main_to_chat, click_on_chat, search_chat, takeBool, logLine]
    rw [hm]
    simp only [after_search_fail, logLine, press_back]
    have hfive : tr ++ [DCall.clickOnChat y, DCall.searchChat y, DCall.clickOnChat y]
        ++ [DCall.pressBack] ++ [DCall.pressBack]
        = tr ++ [DCall.clickOnChat y, DCall.searchChat y, DCall.clickOnChat y,
                 DCall.pressBack, DCall.pressBack] := by simp
    split
    · rcases intent_fallback_trace_mono y
        ⟨rest, nc, ms,
         tr ++ [DCall.clickOnChat y, DCall.searchChat y, DCall.clickOnChat y]
           ++ [DCall.pressBack] ++ [DCall.pressBack],
         lg ++ [LogEntry.debugChatNotFound y] ++ [LogEntry.debugNotInSearch y], ev⟩
        with ⟨l, hl⟩
      rw [hl]
      rw [hfive]
      have hlen : tr.length + 5
          = (tr ++ [DCall.clickOnChat y, DCall.searchChat y, DCall.clickOnChat y,
                    DCall.pressBack, DCall.pressBack]).length := by simp
      rw [hlen, List.take_left]
    · simp only [hfive]
      have hlen : tr.length + 5
          = (tr ++ [DCall.clickOnChat y, DCall.searchChat y, DCall.clickOnChat y,
                    DCall.pressBack, DCall.pressBack]).length := by simp
      rw [hlen, List.take_length]

@[simp] theorem intent_fallback_preserves (y : String) (w : World) :
    (intent_fallback y w).2.events = w.events ∧
    (intent_fallback y w).2.newChat = w.newChat ∧
    (intent_fallback y w).2.msgs = w.msgs := by
  simp only [intent_fallback, sAnd, search_chat, click_on_chat, type_and_send,
    click_on_last_chat_link, click_ok, takeBool, press_back, logLine]
  repeat' split
  all_goals simp

@[simp] theorem after_search_fail_preserves (y : String) (w : World) :
    (after_search_fail y w).2.events = w.events ∧
    (after_search_fail y w).2.newChat = w.newChat ∧
    (after_search_fail y w).2.msgs = w.msgs := by
  simp only [after_search_fail, press_back, logLine]
  split
  · simp
  · simp

@[simp] theorem main_to_chat_preserves (y : String) (w : World) :
    (main_to_chat y w).2.events = w.events ∧
    (main_to_chat y w).2.newChat = w.newChat ∧
    (main_to_chat y w).2.msgs = w.msgs := by
  simp only [main_to_chat, click_on_chat, search_chat, takeBool, logLine]
  split
  · simp
  · split
    · split
      · simp
      · simp
    · simp

@[simp] theorem change_state_events_eq (w : World) (f t : GUIState) :
    (change_state w f t).2.events = w.events := by
  cases f <;> cases t <;>
    simp only [change_state, change_state_main, press_back] <;>
    first
      | rfl
      | exact (main_to_chat_preserves _ _).1
      | (split
         · exact (main_to_chat_preserves _ _).1
         · rfl)

@[simp] theorem change_state_newChat_eq (w : World) (f t : GUIState) :
    (change_state w f t).2.newChat = w.newChat := by
  cases f <;> cases t <;>
    simp only [change_state, change_state_main, press_back] <;>
    first
      | rfl
      | exact (main_to_chat_preserves _ _).2.1
      | (split
         · exact (main_to_chat_preserves _ _).2.1
         · rfl)

@[simp] theorem change_state_msgs_eq (w : World) (f t : GUIState) :
    (change_state w f t).2.msgs = w.msgs := by
  cases f <;> cases t <;>
    simp only [change_state, change_state_main, press_back] <;>
    first
      | rfl
      | exact (main_to_chat_preserves _ _).2.2
      | (split
         · exact (main_to_chat_preserves _ _).2.2
         · rfl)

theorem change_state_to_main_state (w : World) (f : GUIState) :
    (change_state w f GUIState.main).1.2 = GUIState.main := by
  cases f <;> rfl

theorem foldl_call_event_events (name : String) (l : List String) (w : World) :
    (l.foldl (fun w m => call_event (EventEmit.messageReceived name m) w) w).events
      = w.events ++ l.map (EventEmit.messageReceived name) := by
  induction l generalizing w with
  | nil => simp
  | cons m l ih =>
    rw [List.foldl_cons, ih]
    simp [call_event]

@[simp] theorem get_new_chat_fst (w : World) : (get_new_chat w).1 = w.newChat := rfl

@[simp] theorem get_new_chat_events (w : World) : (get_new_chat w).2.events = w.events := rfl

@[simp] theorem get_new_chat_msgs (w : World) : (get_new_chat w).2.msgs = w.msgs := rfl

@[simp] theorem get_new_chat_snd_newChat (w : World) :
    (get_new_chat w).2.newChat = w.newChat := rfl

@[simp] theorem get_new_messages_fst (w : World) : (get_new_messages w).1 = w.msgs := rfl

@[simp] theorem get_new_messages_events (w : World) :
    (get_new_messages w).2.events = w.events := rfl

@[simp] theorem call_event_events (e : EventEmit) (w : World) :
    (call_event e w).events = w.events ++ [e] := rfl

/-- C4: when the poll finds one new chat whose new messages are, in arrival
order, `[m1, m2, m3]`, `check_for_new_chat` emits exactly three MESSAGE_RECEIVED
events carrying `(chat_name, message)`, in the order `m1, m2, m3`; when no new
chat is found it emits zero events. -/
theorem check_new_chat_emits_in_order :
    (∀ (w : World) (current : GUIState) (name m1 m2 m3 : String),
        w.newChat = some name → w.msgs = [m1, m2, m3] →
        (check_for_new_chat w current).2.events
          = w.events ++ [EventEmit.messageReceived name m1,
                         EventEmit.messageReceived name m2,
                         EventEmit.messageReceived name m3]) ∧
    (∀ (w : World) (current : GUIState),
        w.newChat = none →
        (check_for_new_chat w current).2.events = w.events) := by
  constructor
  · intro w current name m1 m2 m3 hc hm
    simp [check_for_new_chat, hc, hm, foldl_call_event_events]
  · intro w current hn
    simp [check_for_new_chat, hn]

theorem check_new_chat_emits_in_order_witness :
    (⟨[], some "c", ["m1", "m2", "m3"], [], [], []⟩ : World).newChat = some "c" ∧
    (check_for_new_chat ⟨[], some "c", ["m1", "m2", "m3"], [], [], []⟩
        GUIState.main).2.events
      = [EventEmit.messageReceived "c" "m1", EventEmit.messageReceived "c" "m2",
         EventEmit.messageReceived "c" "m3"] := by
  refine ⟨rfl, ?_⟩
  have h := check_new_chat_emits_in_order.1
    ⟨[], some "c", ["m1", "m2", "m3"], [], [], []⟩ GUIState.main
    "c" "m1" "m2" "m3" rfl rfl
  simpa using h

/-- C9: `check_for_new_chat` ignores the success flag of reconciliation: on any
driver behaviour where a new chat `name` is found but the `Main -> Chat(name)`
reconciliation fails, it still fetches the new messages and emits one
MESSAGE_RECEIVED event per message attributed to `name`, and returns `Main`
(the unchanged believed state) rather than the chat. -/
theorem check_new_chat_ignores_failed_reconcile (w : World) (current : GUIState)
    (name : String) (hc : w.newChat = some name)
    (hfail : (change_state (get_new_chat (change_state w current GUIState.main).2).2
        GUIState.main (GUIState.chat name)).1.1 = 1) :
    (check_for_new_chat w current).1 = GUIState.main ∧
    (check_for_new_chat w current).2.events
      = w.events ++ w.msgs.map (EventEmit.messageReceived name) := by
  have hst : (change_state w current GUIState.main).1.2 = GUIState.main :=
    change_state_to_main_state w current
  have hr3 : (change_state (get_new_chat (change_state w current GUIState.main).2).2
      GUIState.main (GUIState.chat name)).1 = (1, GUIState.main) := by
    rcases main_to_chat_fst name
        (get_new_chat (change_state w current GUIState.main).2).2 with h0 | h0
    · exact absurd (h0 ▸ hfail) (by simp)
    · exact h0
  constructor
  · simp [check_for_new_chat, hc, hst, hr3]
  · simp [check_for_new_chat, hc, hst, foldl_call_event_events]

/-- A world on which the `Main -> Chat("c")` reconciliation fails (tap and
search both fail) while a new chat `"c"` with one message is pending. -/
def W9 : World := ⟨[false, false], some "c", ["m"], [], [], []⟩

theorem check_new_chat_ignores_failed_reconcile_witness :
    (check_for_new_chat W9 GUIState.main).1 = GUIState.main ∧
    (check_for_new_chat W9 GUIState.main).2.events
      = W9.events ++ W9.msgs.map (EventEmit.messageReceived "c") :=
  check_new_chat_ignores_failed_reconcile W9 GUIState.main "c" rfl (by decide)

/-- C6: when the popped action's payload fails its registered schema check,
`execute_action` logs a warning, removes the action from the buffer (it is
consumed, not retried), invokes no handler (the world is untouched apart from
the warning line), and returns the believed state it was given. -/
theorem execute_action_drops_invalid_payload (reg : String → Option ActionMeta)
    (buf : List SupAction) (w : World) (current : GUIState) (a : SupAction)
    (meta : ActionMeta) (hlast : buf.getLast? = some a)
    (hreg : reg a.name = some meta) (hbad : meta.data_type a.data = false) :
    execute_action reg buf w current
      = StepResult.ok current buf.dropLast
          (logLine (LogEntry.warnActionDataTyping a.name) w) := by
  simp [execute_action, hlast, hreg, hbad]

/-- A registry entry whose schema check rejects every payload and whose handler
is the identity on the state. -/
def metaReject : ActionMeta := ⟨fun _ => false, fun w c _ => (c, w)⟩

/-- A registry mapping every action kind to `metaReject`. -/
def regReject : String → Option ActionMeta := fun _ => some metaReject

/-- A registry with no entries at all. -/
def regEmpty : String → Option ActionMeta := fun _ => none

/-- A concrete action with an empty payload. -/
def act0 : SupAction := ⟨"send_message", ([] : List String)⟩

theorem execute_action_drops_invalid_payload_witness :
    [act0].getLast? = some act0 ∧ regReject act0.name = some metaReject ∧
    metaReject.data_type act0.data = false ∧
    execute_action regReject [act0] W0 GUIState.main
      = StepResult.ok GUIState.main ([act0].dropLast)
          (logLine (LogEntry.warnActionDataTyping act0.name) W0) :=
  ⟨rfl, rfl, rfl,
   execute_action_drops_invalid_payload regReject [act0] W0 GUIState.main
     act0 metaReject rfl rfl rfl⟩

/-- C7: when the popped action's kind is absent from the action registry,
`execute_action` fails fast: the lookup failure (`KeyError`) propagates to the
caller instead of the function returning normally with the action swallowed. -/
theorem execute_action_unknown_kind_fails (reg : String → Option ActionMeta)
    (buf : List SupAction) (w : World) (current : GUIState) (a : SupAction)
    (hlast : buf.getLast? = some a) (hreg : reg a.name = none) :
    execute_action reg buf w current
      = StepResult.keyError a.name buf.dropLast w := by
  simp [execute_action, hlast, hreg]

theorem execute_action_unknown_kind_fails_witness :
    [act0].getLast? = some act0 ∧ regEmpty act0.name = none ∧
    execute_action regEmpty [act0] W0 GUIState.main
      = StepResult.keyError act0.name ([act0].dropLast) W0 :=
  ⟨rfl, rfl,
   execute_action_unknown_kind_fails regEmpty [act0] W0 GUIState.main act0 rfl rfl⟩

theorem startsWithDigits_iff (n : Nat) (l : List Char) :
    startsWithDigits n l = true ↔
      (l.take n).length = n ∧ (l.take n).all isDigitChar = true := by
  induction n generalizing l with
  | zero => simp [startsWithDigits]
  | succ n ih =>
    cases l with
    | nil => simp [startsWithDigits]
    | cons c cs =>
      simp [startsWithDigits, List.take_succ_cons, ih, Bool.and_eq_true, List.all_cons]
      tauto

theorem existsMatchPos_iff (l : List Char) :
    existsMatchPos l = true ↔ ∃ i, startsWithDigits 11 (l.drop i) = true := by
  induction l with
  | nil =>
    simp only [existsMatchPos, List.drop_nil]
    constructor
    · intro h; cases h
    · rintro ⟨i, hi⟩
      rw [show startsWithDigits 11 ([] : List Char) = false from by decide] at hi
      cases hi
  | cons c cs ih =>
    simp only [existsMatchPos, Bool.or_eq_true, ih]
    constructor
    · rintro (h | ⟨i, hi⟩)
      · exact ⟨0, h⟩
      · exact ⟨i + 1, hi⟩
    · rintro ⟨i, hi⟩
      cases i with
      | zero => exact Or.inl hi
      | succ i => exact Or.inr ⟨i, hi⟩

/-- The spec's wording of deep-link eligibility: the string contains a
contiguous run of 11 to 13 digit characters — a sublist of `n` consecutive
characters, `11 ≤ n ≤ 13`, all digits. -/
def spec_deep_link_eligible (s : String) : Prop :=
  ∃ i n, 11 ≤ n ∧ n ≤ 13 ∧ ((s.data.drop i).take n).length = n ∧
    ((s.data.drop i).take n).all isDigitChar = true

/-- C5: a chat identifier is deep-link-eligible — `re.search("\d{11,13}", x)`
matches, the guard under which `change_state` may enter the deep-link fallback
— iff it contains a contiguous run of 11 to 13 digit characters; in particular
the 11-digit `"12345678901"` is eligible and the 10-digit `"1234567890"` is
not. -/
theorem deep_link_eligible_iff :
    (∀ s : String, re_search_digits_11_13 s = true ↔ spec_deep_link_eligible s) ∧
    re_search_digits_11_13 "12345678901" = true ∧
    re_search_digits_11_13 "1234567890" = false := by
  refine ⟨?_, by decide, by decide⟩
  intro s
  rw [re_search_digits_11_13, existsMatchPos_iff]
  constructor
  · rintro ⟨i, hi⟩
    rw [startsWithDigits_iff] at hi
    exact ⟨i, 11, le_refl 11, by norm_num, hi.1, hi.2⟩
  · rintro ⟨i, n, h11, h13, hlen, hall⟩
    refine ⟨i, ?_⟩
    rw [startsWithDigits_iff]
    have hnle : n ≤ (s.data.drop i).length := by
      rw [List.length_take] at hlen
      omega
    have htt : ((s.data.drop i).take n).take 11 = (s.data.drop i).take 11 := by
      rw [List.take_take, min_eq_left h11]
    constructor
    · rw [List.length_take]
      omega
    · rw [← htt]
      rw [List.all_eq_true] at hall ⊢
      intro x hx
      exact hall x (List.take_subset _ _ hx)
